import Mathlib

/-!
Verification development for the `pahfit` Model façade (`src/pahfit/model.py`).

The file shallow-embeds the `Model` class and the pieces of its environment
that its methods touch.  Code that lives in `src/pahfit/model.py` is translated
line by line; the collaborators it imports (`features.Features`,
`base.PAHFITBase`, the astropy fitting/units machinery, specutils spectra,
matplotlib) are repository or third-party code that is not under `src/`, so
they are modelled from the specification, and each such definition carries a
doc comment saying so.

Python exceptions are embedded as an explicit error type; a method that can
raise returns `Except PyError _` together with the state of the model object
after the call.  An object attribute that may be unset (Python raises
`AttributeError` when it is read before any assignment) is embedded as an
`Option` field that starts out `none`.
-/

/-- The Python exceptions that the embedded code can raise. -/
inductive PyError where
  | notImplementedError
  | attributeError (attrName : String)
  | unboundLocalError (varName : String)
  | parseError
  | fileNotFoundError
deriving DecidableEq, Repr

/-- Modelled from the spec: one row of the FeaturesTable, "each row describing
one spectral feature (kind, center wavelength, width, amplitude, bounds,
fixed/free flags)".  The `features` module is repository code that is not under
`src/`. -/
structure FeatureRow where
  name : String
  kind : String
  wavelength : Rat
  fwhm : Rat
  power : Rat
  fixed : Bool
deriving DecidableEq, Repr

/-- Modelled from the spec: the FeaturesTable is an "ordered collection of
rows".  The `features` module is repository code that is not under `src/`. -/
structure Features where
  rows : List FeatureRow
deriving DecidableEq, Repr

/-- Content of a file on disk, as far as the embedded code can observe it:
either a well-formed features table or a malformed file that the external
reader rejects. -/
inductive FileData where
  | table (rows : List FeatureRow)
  | malformed
deriving DecidableEq, Repr

/-- The file system, used by the read/write operations: an association from
path to file content, where a lookup returns the most recently written entry. -/
abbrev FileSystem : Type := List (String × FileData)

/-- Modelled from the spec: `Features.read` "loads a FeaturesTable" from a
structured file and "fails with a parse/format error if the file is
malformed" (load-time format errors are "propagated uncaught").  The
`features` module is repository code that is not under `src/`. -/
def Features.read (fs : FileSystem) (path : String) : Except PyError Features :=
  match List.lookup path fs with
  | some (FileData.table rows) => Except.ok ⟨rows⟩
  | some FileData.malformed => Except.error PyError.parseError
  | none => Except.error PyError.fileNotFoundError

/-- Modelled from the spec: `Features.write` "serializes FeaturesTable to
disk"; the written file replaces any previous content at that path.  The
`features` module is repository code that is not under `src/`. -/
def Features.write (f : Features) (fn : String) (fs : FileSystem) : FileSystem :=
  (fn, FileData.table f.rows) :: fs

/-- Modelled from the spec: a 1D spectrum is "an object exposing a spectral
axis (wavelength/frequency) and a flux array with compatible units, plus
optional per-sample uncertainty".  The spectral-axis values are recorded in
micron, so that conversion to micron is the identity. -/
structure Spectrum1D where
  spectral_axis : List Rat
  flux : List Rat
  uncertainty : List Rat
deriving DecidableEq, Repr

/-- A unit object obtained from the astropy units module. -/
structure AstroUnit where
  uname : String
deriving DecidableEq, Repr

/-- The attributes of the astropy units module that the source file looks up.
`micron` is a real astropy unit; `micon` (the identifier the source writes on
the `fit` and `plot` unit-conversion lines) is not an attribute of the units
module. -/
def astropyUnitsMembers : List String := ["micron"]

/-- Attribute lookup on the astropy units module (`u.<name>` in the source):
a missing attribute raises `AttributeError`, as Python module lookup does. -/
def astropyUnitsAttr (name : String) : Except PyError AstroUnit :=
  if name ∈ astropyUnitsMembers then Except.ok ⟨name⟩
  else Except.error (PyError.attributeError name)

/-- Modelled from the spec: `.to(unit).value` on a spectral axis converts the
values to the requested unit.  Axis values are stored in micron and the only
unit the source successfully looks up is micron, so the conversion returns
the stored values. -/
def Quantity.to (values : List Rat) (_un : AstroUnit) : List Rat := values

/-- One of the dictionaries inside `param_info`: feature names mapped to a
numeric parameter. -/
abbrev FeatDict : Type := List (String × Rat)

/-- Modelled from the spec: ParamInfo is the "transient intermediate parameter
structure bridging the table and the fittable model".  The source indexes it
as a tuple; fields `p0`–`p3` stand for `param_info[0]`–`param_info[3]`, where
entries 2 and 3 are the dictionaries whose line widths get updated. -/
structure ParamInfo where
  p0 : FeatDict
  p1 : FeatDict
  p2 : FeatDict
  p3 : FeatDict
deriving DecidableEq, Repr

/-- Modelled from the spec: the fittable curve model produced by the external
astronomy modeling framework; `fitted` records whether it is the raw output of
the solver rather than a freshly constructed model. -/
structure AstropyModel where
  params : List (String × Rat)
  fitted : Bool
deriving DecidableEq, Repr

/-- Modelled from the spec: stand-in for the "instrument width resolver",
which "maps instrument name + feature list to resolved line-width parameters".
The `instrument` module is repository code that is not under `src/`; the
resolved width is some concrete function of the instrument name and the
tabulated width. -/
def instrumentFwhm (instrumentname : String) (w : Rat) : Rat :=
  w * (instrumentname.length + 1)

/-- Modelled from the spec: `PAHFITBase.parse_table` parses "the features
table plus instrument resolution" into the transient ParamInfo.  `base` is
repository code that is not under `src/`; rows are grouped by kind into the
four dictionaries of the tuple. -/
def PAHFITBase.parse_table (f : Features) : ParamInfo where
  p0 := (f.rows.filter (fun r => r.kind == "starlight")).map (fun r => (r.name, r.power))
  p1 := (f.rows.filter (fun r => r.kind == "dust_continuum")).map (fun r => (r.name, r.power))
  p2 := (f.rows.filter (fun r => r.kind == "line")).map (fun r => (r.name, r.fwhm))
  p3 := (f.rows.filter (fun r => r.kind == "dust_feature")).map (fun r => (r.name, r.fwhm))

/-- Modelled from the spec: `PAHFITBase.update_dictionary` performs the
instrument resolution, editing line widths for the named instrument when
`update_fwhms` is set.  `base` is repository code that is not under `src/`. -/
def PAHFITBase.update_dictionary (d : FeatDict) (instrumentname : String)
    (update_fwhms : Bool) : FeatDict :=
  if update_fwhms then d.map (fun nw => (nw.1, instrumentFwhm instrumentname nw.2)) else d

/-- Modelled from the spec: `PAHFITBase.model_from_param_info` converts the
transient ParamInfo into the external framework's fittable model.  `base` is
repository code that is not under `src/`. -/
def PAHFITBase.model_from_param_info (p : ParamInfo) : AstropyModel where
  params := p.p0 ++ p.p1 ++ p.p2 ++ p.p3
  fitted := false

/-- Modelled from the spec: `PAHFITBase.estimate_init` "derives initial
parameter estimates from observed flux" given the observed axis, the observed
flux and the current ParamInfo.  `base` is repository code that is not under
`src/`; the continuum amplitudes are set from the peak observed flux as a
concrete stand-in. -/
def PAHFITBase.estimate_init (obs_x obs_y : List Rat) (p : ParamInfo) : ParamInfo :=
  let peak := obs_y.foldl max (obs_x.headD 0)
  { p with
    p0 := p.p0.map (fun nv => (nv.1, peak))
    p1 := p.p1.map (fun nv => (nv.1, peak)) }

/-- Modelled from the spec: the external "nonlinear least-squares solver"
(`LevMarLSQFitter` from astropy).  Its numerical optimum is outside the scope
of this embedding; the returned object is the raw fit result built from the
inputs. -/
def LevMarLSQFitter.fit (model : AstropyModel) (_x _y _weights : List Rat)
    (_maxiter : Nat) : AstropyModel :=
  { model with fitted := true }

/-- The `Model` class of `src/pahfit/model.py`: "holds features, instrument
identity, redshift".  `astropy_result` is the attribute assigned only inside
`fit`; `none` means it has never been assigned, so reading it raises
`AttributeError`. -/
structure Model where
  redshift : Rat
  instrumentname : String
  features : Features
  astropy_result : Option AstropyModel
deriving DecidableEq, Repr

/-- `Model.__init__` (src/pahfit/model.py lines 44-61): stores redshift,
instrument name and features; it does not initialize `astropy_result`. -/
def Model.init (features : Features) (instrumentname : String) (redshift : Rat) : Model where
  redshift := redshift
  instrumentname := instrumentname
  features := features
  astropy_result := none

/-- `Model.from_yaml` (lines 63-78): read the features from the pack file and
construct the model with the given instrument name and redshift. -/
def Model.from_yaml (fs : FileSystem) (pack_file : String) (instrumentname : String)
    (redshift : Rat) : Except PyError Model :=
  match Features.read fs pack_file with
  | Except.ok features => Except.ok (Model.init features instrumentname redshift)
  | Except.error e => Except.error e

/-- `Model.from_saved` (lines 80-99): read the features from the saved file
and construct the model with the mocked metadata
`{"redshift": 0.0, "instrumentname": "bla"}`. -/
def Model.from_saved (fs : FileSystem) (saved_model_file : String) : Except PyError Model :=
  match Features.read fs saved_model_file with
  | Except.ok features => Except.ok (Model.init features "bla" 0)
  | Except.error e => Except.error e

/-- `Model.save` (lines 215-231): write the features table to the file. -/
def Model.save (m : Model) (fn : String) (fs : FileSystem) : FileSystem :=
  Features.write m.features fn fs

/-- `Model.info` (lines 163-165): print `self.astropy_result`.  Reading the
attribute raises `AttributeError` when it has never been assigned; otherwise
the printed object is returned. -/
def Model.info (m : Model) : Except PyError AstropyModel :=
  match m.astropy_result with
  | none => Except.error (PyError.attributeError "astropy_result")
  | some r => Except.ok r

/-- `Model._kludge_param_info` (lines 233-242): parse the table, then update
the line widths of `param_info[2]` and `param_info[3]` for the instrument. -/
def Model.kludge_param_info (m : Model) : ParamInfo :=
  let param_info := PAHFITBase.parse_table m.features
  let param_info :=
    { param_info with
      p2 := PAHFITBase.update_dictionary param_info.p2 m.instrumentname true }
  { param_info with
    p3 := PAHFITBase.update_dictionary param_info.p3 m.instrumentname true }

/-- `Model._backport_param_info` (lines 244-257): its body is
`raise NotImplementedError` before any other statement. -/
def Model.backport_param_info (_m : Model) (_param_info : ParamInfo) :
    Except PyError Model :=
  Except.error PyError.notImplementedError

/-- `Model._construct_astropy_model` (lines 259-262). -/
def Model.construct_astropy_model (m : Model) : AstropyModel :=
  PAHFITBase.model_from_param_info m.kludge_param_info

/-- `Model._parse_astropy_result` (lines 264-280): its body is
`raise NotImplementedError` before any other statement. -/
def Model.parse_astropy_result (_m : Model) (_astropy_model : AstropyModel) :
    Except PyError Model :=
  Except.error PyError.notImplementedError

/-- Outcome of a `guess` call: the raised-or-returned result, the state of the
model object afterwards, and the ParamInfo computed by the estimation step
before the write-back was attempted (`none` when the call failed before the
estimation). -/
structure GuessOutcome where
  result : Except PyError Unit
  final : Model
  estimated : Option ParamInfo

/-- `Model.guess` (lines 101-124), statement by statement:
`obs_x = spec.spectral_axis.to(u.micron).value`, `obs_y = spec.flux.value`,
`param_info = self._kludge_param_info()`,
`param_info = PAHFITBase.estimate_init(obs_x, obs_y, param_info)`,
`self._backport_param_info(param_info)`. -/
def Model.guess (m : Model) (spec : Spectrum1D) : GuessOutcome :=
  match astropyUnitsAttr "micron" with
  | Except.error e => { result := Except.error e, final := m, estimated := none }
  | Except.ok un =>
    let obs_x := Quantity.to spec.spectral_axis un
    let obs_y := spec.flux
    let param_info := m.kludge_param_info
    let param_info := PAHFITBase.estimate_init obs_x obs_y param_info
    match m.backport_param_info param_info with
    | Except.error e =>
      { result := Except.error e, final := m, estimated := some param_info }
    | Except.ok m' =>
      { result := Except.ok (), final := m', estimated := some param_info }

/-- Outcome of a `fit` call: the raised-or-returned result and the state of
the model object afterwards. -/
structure FitOutcome where
  result : Except PyError Unit
  final : Model

/-- `Model.fit` (lines 126-161), statement by statement:
`astropy_model = self._construct_astropy_model()`, then
`x = spec.spectral_axis.to(u.micon).value` — the source writes `u.micon`
(not `u.micron`), and the units module has no such attribute, so this line
raises `AttributeError` — then `y`, `w = 1.0/spec.uncertainty.value`,
`self.astropy_result = fit(astropy_model, x, y, ...)`, and finally
`self._parse_astropy_result(self.astropy_result)`. -/
def Model.fit (m : Model) (spec : Spectrum1D) (maxiter : Nat := 1000)
    (_verbose : Bool := true) : FitOutcome :=
  let astropy_model := m.construct_astropy_model
  match astropyUnitsAttr "micon" with
  | Except.error e => { result := Except.error e, final := m }
  | Except.ok un =>
    let x := Quantity.to spec.spectral_axis un
    let y := spec.flux
    let w := spec.uncertainty.map (fun s => 1 / s)
    let res := LevMarLSQFitter.fit astropy_model x y w maxiter
    let m := { m with astropy_result := some res }
    match m.parse_astropy_result res with
    | Except.error e => { result := Except.error e, final := m }
    | Except.ok m' => { result := Except.ok (), final := m' }

/-- Externally visible steps of a `plot` call, in order. -/
inductive PlotEvent where
  | figureCreated
  | modelConstructed
  | plotted
deriving DecidableEq, Repr

/-- Outcome of a `plot` call: result, state of the model afterwards, and the
trace of externally visible steps that were reached. -/
structure PlotOutcome where
  result : Except PyError Unit
  final : Model
  events : List PlotEvent

/-- `Model.plot` (lines 167-191), statement by statement.  First
`fig, axs = plt.subplots(...)` creates an empty figure.  The next statement is
`x = spec.spectral_axis.to(u.micon).value`.  The later line
`u = spec.uncertainty.value` makes `u` a function-local name throughout the
body (Python function scoping), so on this line `u` is the not-yet-assigned
local, not the units module: with a spectrum supplied, evaluating the call
argument `u.micon` raises `UnboundLocalError`; with the default `spec=None`,
evaluating `spec.spectral_axis` first raises `AttributeError` on `None`.
Either way `_construct_astropy_model` and `PAHFITBase.plot` are never
reached. -/
def Model.plot (m : Model) (spec : Option Spectrum1D := none) : PlotOutcome :=
  let events := [PlotEvent.figureCreated]
  match spec with
  | none =>
    { result := Except.error (PyError.attributeError "spectral_axis"),
      final := m, events := events }
  | some _ =>
    { result := Except.error (PyError.unboundLocalError "u"),
      final := m, events := events }

/-- A heap of feature-table storages, for reasoning about aliasing: Python
objects live in a heap, and `copy.deepcopy` duplicates the reachable storage.
Index `i` of `tables` is the backing storage of table reference `i`. -/
structure PyHeap where
  tables : List (List FeatureRow)
deriving DecidableEq, Repr

/-- A `Model` object as it sits in the heap: the scalar fields inline, the
features table held by reference into the heap. -/
structure ModelRef where
  redshift : Rat
  instrumentname : String
  featuresId : Nat
deriving DecidableEq, Repr

/-- The row values a model reference currently sees for a table reference. -/
def PyHeap.getRows (h : PyHeap) (tid : Nat) : List FeatureRow :=
  h.tables.getD tid []

/-- Mutating one row of the table behind reference `tid` in place, as the user
does when editing the features table of a model. -/
def PyHeap.setRow (h : PyHeap) (tid : Nat) (i : Nat) (r : FeatureRow) : PyHeap :=
  ⟨h.tables.set tid ((h.tables.getD tid []).set i r)⟩

/-- `Model.copy` (src/pahfit/model.py lines 193-213): `copy.deepcopy(self)`.
The deep copy duplicates the scalar fields and allocates fresh backing
storage holding an element-wise equal copy of the features table, so the copy
shares no storage with the original. -/
def ModelRef.copy (h : PyHeap) (m : ModelRef) : PyHeap × ModelRef :=
  (⟨h.tables ++ [h.getRows m.featuresId]⟩,
   { m with featuresId := h.tables.length })

/-- A concrete line feature row used as test data. -/
def row0 : FeatureRow where
  name := "H2_S(3)"
  kind := "line"
  wavelength := 966 / 100
  fwhm := 1 / 10
  power := 5
  fixed := false

/-- A concrete continuum feature row used as test data. -/
def row1 : FeatureRow where
  name := "cont1"
  kind := "dust_continuum"
  wavelength := 12
  fwhm := 2
  power := 3
  fixed := false

/-- A concrete features table used as test data. -/
def features0 : Features := ⟨[row0, row1]⟩

/-- A concrete freshly constructed model used as test data. -/
def m0 : Model := Model.init features0 "spitzer.irs.sl.1" 0

/-- A concrete spectrum used as test data. -/
def spec0 : Spectrum1D where
  spectral_axis := [5, 10, 15]
  flux := [1, 2, 1]
  uncertainty := [1, 1, 1]

/-- Claim C1: the claim says `fit` runs the least-squares solver, stores the
raw fit result in `astropy_result`, and only then raises the not-implemented
failure at its final write-back step.  On the code as written, `fit` instead
raises `AttributeError` at the unit-conversion line
`x = spec.spectral_axis.to(u.micon).value` (`micon` is not an attribute of the
units module; `guess` three lines earlier spells `u.micron`), before the
solver runs: evaluated on a concrete spectrum, the call raises
`AttributeError` for `micon`, not `NotImplementedError`, and `astropy_result`
is still unassigned afterwards. -/
theorem fit_raises_attribute_error_before_solver :
    (Model.fit m0 spec0 1000 true).result
        = Except.error (PyError.attributeError "micon") ∧
    (Model.fit m0 spec0 1000 true).result
        ≠ Except.error PyError.notImplementedError ∧
    (Model.fit m0 spec0 1000 true).final.astropy_result = none := by
  refine ⟨rfl, ?_, rfl⟩
  intro hcontra
  exact absurd (Except.error.inj hcontra) (by decide)

/-- Claim C2: for every model state and every 1D spectrum, `guess` performs
the initial-guess estimation from the spectrum's spectral axis and flux (the
ParamInfo produced by `PAHFITBase.estimate_init` is reached and recorded),
and then raises `NotImplementedError` at the write-back step
`_backport_param_info`; no call to `guess` returns normally, and the model is
left unchanged. -/
theorem guess_estimates_then_raises (m : Model) (spec : Spectrum1D) :
    Model.guess m spec =
      { result := Except.error PyError.notImplementedError,
        final := m,
        estimated := some (PAHFITBase.estimate_init spec.spectral_axis spec.flux
          m.kludge_param_info) } := rfl

/-- Claim C3: saving a model and loading the saved file back yields a model
whose feature rows are element-wise equal to the original's; the metadata does
not round-trip (it is replaced by the placeholders), so exactly the feature
rows survive the round trip. -/
theorem save_then_from_saved_roundtrip (m : Model) (fn : String) (fs : FileSystem) :
    Model.from_saved (m.save fn fs) fn
      = Except.ok { redshift := 0, instrumentname := "bla",
                    features := m.features, astropy_result := none } := by
  simp [Model.from_saved, Model.save, Features.write, Features.read,
    List.lookup, Model.init]

/-- Claim C6: for every model state and every argument, after a `plot` call
the features table, instrument name and redshift are unchanged; `plot` never
assigns to the model object. -/
theorem plot_preserves_model_state (m : Model) (spec : Option Spectrum1D) :
    (Model.plot m spec).final.features = m.features ∧
    (Model.plot m spec).final.instrumentname = m.instrumentname ∧
    (Model.plot m spec).final.redshift = m.redshift := by
  cases spec <;> exact ⟨rfl, rfl, rfl⟩

/-- Claim C9: `guess` and `fit` fail atomically: both raise on every input,
and afterwards the model object — its features table, instrument name,
redshift, and its `astropy_result` attribute — is exactly as it was before
the call, so the failing call assigned no `astropy_result`. -/
theorem guess_fit_failures_are_atomic (m : Model) (spec : Spectrum1D)
    (maxiter : Nat) (verbose : Bool) :
    (∃ e, (Model.guess m spec).result = Except.error e) ∧
    (Model.guess m spec).final = m ∧
    (∃ e, (Model.fit m spec maxiter verbose).result = Except.error e) ∧
    (Model.fit m spec maxiter verbose).final = m ∧
    (Model.fit m spec maxiter verbose).final.astropy_result = m.astropy_result :=
  ⟨⟨PyError.notImplementedError, rfl⟩, rfl,
   ⟨PyError.attributeError "micon", rfl⟩, rfl, rfl⟩

/-- Updating a row of one table leaves every other table's rows unchanged. -/
theorem PyHeap.getRows_setRow_ne (h : PyHeap) (tid tid' i : Nat) (r : FeatureRow)
    (hne : tid ≠ tid') : (h.setRow tid i r).getRows tid' = h.getRows tid' := by
  simp [PyHeap.setRow, PyHeap.getRows, List.getD_eq_getElem?_getD,
    List.getElem?_set_ne hne]

/-- Claim C4: `copy` returns a model whose features table is element-wise
equal to the original's and whose scalar fields are equal, backed by distinct
storage: mutating any row of the copy's table leaves the original's row
values unchanged, and mutating the original's table leaves the copy's row
values unchanged. -/
theorem copy_is_deep (h : PyHeap) (m : ModelRef)
    (hv : m.featuresId < h.tables.length) :
    (ModelRef.copy h m).1.getRows (ModelRef.copy h m).2.featuresId
        = (ModelRef.copy h m).1.getRows m.featuresId ∧
    (ModelRef.copy h m).2.featuresId ≠ m.featuresId ∧
    (ModelRef.copy h m).2.redshift = m.redshift ∧
    (ModelRef.copy h m).2.instrumentname = m.instrumentname ∧
    (∀ i r, ((ModelRef.copy h m).1.setRow (ModelRef.copy h m).2.featuresId i r).getRows
        m.featuresId = (ModelRef.copy h m).1.getRows m.featuresId) ∧
    (∀ i r, ((ModelRef.copy h m).1.setRow m.featuresId i r).getRows
        (ModelRef.copy h m).2.featuresId
        = (ModelRef.copy h m).1.getRows (ModelRef.copy h m).2.featuresId) := by
  have hne : h.tables.length ≠ m.featuresId := ne_of_gt hv
  refine ⟨?_, hne, rfl, rfl, fun i r => ?_, fun i r => ?_⟩
  · simp [ModelRef.copy, PyHeap.getRows, List.getD_eq_getElem?_getD,
      List.getElem?_concat_length, List.getElem?_append_left hv]
  · exact PyHeap.getRows_setRow_ne _ _ _ _ _ hne
  · exact PyHeap.getRows_setRow_ne _ _ _ _ _ (Ne.symm hne)

/-- A concrete one-table heap used as test data. -/
def heap0 : PyHeap := ⟨[[row0, row1]]⟩

/-- A concrete heap-resident model used as test data. -/
def mref0 : ModelRef where
  redshift := 0
  instrumentname := "spitzer.irs.sl.1"
  featuresId := 0

/-- Witness for claim C4 at a concrete heap and model: the hypothesis that
the model's table reference is live holds, and the deep-copy conclusions
follow. -/
theorem copy_is_deep_witness :
    mref0.featuresId < heap0.tables.length ∧
    ((ModelRef.copy heap0 mref0).1.getRows (ModelRef.copy heap0 mref0).2.featuresId
        = (ModelRef.copy heap0 mref0).1.getRows mref0.featuresId ∧
     (ModelRef.copy heap0 mref0).2.featuresId ≠ mref0.featuresId ∧
     (ModelRef.copy heap0 mref0).2.redshift = mref0.redshift ∧
     (ModelRef.copy heap0 mref0).2.instrumentname = mref0.instrumentname ∧
     (∀ i r, ((ModelRef.copy heap0 mref0).1.setRow
         (ModelRef.copy heap0 mref0).2.featuresId i r).getRows mref0.featuresId
         = (ModelRef.copy heap0 mref0).1.getRows mref0.featuresId) ∧
     (∀ i r, ((ModelRef.copy heap0 mref0).1.setRow mref0.featuresId i r).getRows
         (ModelRef.copy heap0 mref0).2.featuresId
         = (ModelRef.copy heap0 mref0).1.getRows
             (ModelRef.copy heap0 mref0).2.featuresId)) :=
  ⟨by decide, copy_is_deep heap0 mref0 (by decide)⟩

/-- Claim C5: whatever saved-model file `from_saved` successfully loads, the
resulting model carries the feature rows read from the file together with the
fixed placeholder metadata — redshift 0.0 and the dummy instrument name
"bla" — regardless of what redshift and instrument the saving model had. -/
theorem from_saved_uses_placeholder_metadata (fs : FileSystem) (path : String)
    (m' : Model) (hm : Model.from_saved fs path = Except.ok m') :
    m'.redshift = 0 ∧ m'.instrumentname = "bla" ∧
    Features.read fs path = Except.ok m'.features ∧ m'.astropy_result = none := by
  revert hm
  unfold Model.from_saved
  cases Features.read fs path with
  | ok f =>
    intro hm
    injection hm with h
    subst h
    exact ⟨rfl, rfl, rfl, rfl⟩
  | error e =>
    intro hm
    exact Except.noConfusion hm

/-- A concrete file system holding one saved-model file, used as test data. -/
def fsSaved : FileSystem := [("saved.ecsv", FileData.table [row0, row1])]

/-- Witness for claim C5 at a concrete saved file: the load succeeds and the
placeholder-metadata conclusions follow. -/
theorem from_saved_placeholder_witness :
    Model.from_saved fsSaved "saved.ecsv"
        = Except.ok (Model.init ⟨[row0, row1]⟩ "bla" 0) ∧
    ((Model.init ⟨[row0, row1]⟩ "bla" 0).redshift = 0 ∧
     (Model.init ⟨[row0, row1]⟩ "bla" 0).instrumentname = "bla" ∧
     Features.read fsSaved "saved.ecsv"
        = Except.ok (Model.init ⟨[row0, row1]⟩ "bla" 0).features ∧
     (Model.init ⟨[row0, row1]⟩ "bla" 0).astropy_result = none) :=
  ⟨rfl, from_saved_uses_placeholder_metadata fsSaved "saved.ecsv" _ rfl⟩

/-- Claim C7: `from_yaml` returns a model whose redshift and instrument name
are exactly the given arguments and whose features table is the one read from
the given pack file; on a malformed file it fails with the reader's parse
error. -/
theorem from_yaml_reads_pack_and_sets_metadata (fs : FileSystem)
    (pack_file instrumentname : String) (redshift : Rat) :
    (∀ f, Features.read fs pack_file = Except.ok f →
      Model.from_yaml fs pack_file instrumentname redshift
        = Except.ok { redshift := redshift, instrumentname := instrumentname,
                      features := f, astropy_result := none }) ∧
    (List.lookup pack_file fs = some FileData.malformed →
      Model.from_yaml fs pack_file instrumentname redshift
        = Except.error PyError.parseError) := by
  constructor
  · intro f hf
    unfold Model.from_yaml
    rw [hf]
    rfl
  · intro hl
    unfold Model.from_yaml Features.read
    rw [hl]

/-- A concrete file system holding one well-formed pack file, test data. -/
def fsPack : FileSystem := [("pack.yaml", FileData.table [row0, row1])]

/-- A concrete file system holding one malformed pack file, test data. -/
def fsBadPack : FileSystem := [("bad.yaml", FileData.malformed)]

/-- Witness for claim C7 at concrete pack files: a successful load with the
given metadata, and a parse failure on a malformed file. -/
theorem from_yaml_witness :
    (Features.read fsPack "pack.yaml" = Except.ok ⟨[row0, row1]⟩ ∧
     Model.from_yaml fsPack "pack.yaml" "spitzer.irs.sl.1" 1
       = Except.ok { redshift := 1, instrumentname := "spitzer.irs.sl.1",
                     features := ⟨[row0, row1]⟩, astropy_result := none }) ∧
    (List.lookup "bad.yaml" fsBadPack = some FileData.malformed ∧
     Model.from_yaml fsBadPack "bad.yaml" "spitzer.irs.sl.1" 1
       = Except.error PyError.parseError) :=
  ⟨⟨rfl,
    (from_yaml_reads_pack_and_sets_metadata fsPack "pack.yaml"
      "spitzer.irs.sl.1" 1).1 ⟨[row0, row1]⟩ rfl⟩,
   ⟨rfl,
    (from_yaml_reads_pack_and_sets_metadata fsBadPack "bad.yaml"
      "spitzer.irs.sl.1" 1).2 rfl⟩⟩

/-- Claim C8: `plot` raises on every argument: with a spectrum supplied, the
local name `u` (assigned from the uncertainty on a later line) shadows the
units module throughout the body, so the lookup `u.micon` on the
unit-conversion line is an unbound-local reference; with the default
`spec=None`, the spectrum is dereferenced unconditionally on that same line.
In both cases the failure happens before any model is built or any figure
content drawn. -/
theorem plot_always_raises_before_building_model (m : Model) :
    (∀ s : Spectrum1D, Model.plot m (some s)
        = { result := Except.error (PyError.unboundLocalError "u"), final := m,
            events := [PlotEvent.figureCreated] }) ∧
    Model.plot m none
        = { result := Except.error (PyError.attributeError "spectral_axis"),
            final := m, events := [PlotEvent.figureCreated] } ∧
    (∀ spec, PlotEvent.modelConstructed ∉ (Model.plot m spec).events ∧
        PlotEvent.plotted ∉ (Model.plot m spec).events) := by
  refine ⟨fun s => rfl, rfl, fun spec => ?_⟩
  cases spec <;> constructor <;> simp [Model.plot]

/-- Claim C10: `__init__` does not initialize `astropy_result`; the only
assignment to it sits inside `fit` after the solver step, which `fit` as
written never reaches; and on any model whose `astropy_result` has never been
assigned — in particular any freshly constructed model — `info` raises
`AttributeError` when it reads the attribute. -/
theorem info_raises_when_fit_never_completed (m : Model)
    (h : m.astropy_result = none) (features : Features)
    (instrumentname : String) (redshift : Rat) :
    Model.info m = Except.error (PyError.attributeError "astropy_result") ∧
    (Model.init features instrumentname redshift).astropy_result = none ∧
    (∀ spec maxiter verbose,
      (Model.fit m spec maxiter verbose).final.astropy_result = none) := by
  refine ⟨?_, rfl, fun spec maxiter verbose => h⟩
  unfold Model.info
  rw [h]

/-- Witness for claim C10 at a concrete freshly constructed model: its
`astropy_result` is unset and the conclusions follow. -/
theorem info_raises_witness :
    m0.astropy_result = none ∧
    (Model.info m0 = Except.error (PyError.attributeError "astropy_result") ∧
     (Model.init features0 "spitzer.irs.sl.1" 0).astropy_result = none ∧
     (∀ spec maxiter verbose,
       (Model.fit m0 spec maxiter verbose).final.astropy_result = none)) :=
  ⟨rfl, info_raises_when_fit_never_completed m0 rfl features0 "spitzer.irs.sl.1" 0⟩
